import Mathlib

/-!
A formal model of the school-app browser client (the scripts embedded in
src/README.md and src/static/app.js), together with theorems checking the
testable properties of the specification against the code.

The model is a shallow embedding: each client function that the claims
touch becomes a Lean function over explicit state, and each fetch result
is an explicit value of a response type, so that a step of the client is
the application of the corresponding Lean function.
-/

namespace SchoolApp

/-- A school summary object as the client handles it. Only the fields the
client logic inspects are modelled; `name` is the key used by all
watchlist and exclusion logic. -/
structure School where
  name : String
  kind : Option String := none
  description : Option String := none
deriving Repr, DecidableEq

/-- Result of a watchlist mutation: the new in-memory list, the list that
was written to persisted storage (`none` when saveToLocalStorage was not
reached), and whether a user-visible alert was shown. -/
structure WatchlistResult where
  watchlist : List School
  stored : Option (List School)
  notice : Bool
deriving Repr, DecidableEq

/-- The addToWatchlist function of src/README.md lines 1005-1017: a school
whose name is already present triggers an alert and an early return before
any mutation or save; otherwise the school is pushed and the list saved. -/
def addToWatchlist (w : List School) (school : School) : WatchlistResult :=
  if w.any (fun s => s.name == school.name) then
    { watchlist := w, stored := none, notice := true }
  else
    { watchlist := w ++ [school], stored := some (w ++ [school]), notice := false }

/-- The removeFromWatchlist function of src/README.md lines 1019-1024:
keeps exactly the entries whose name differs from the given name. -/
def removeFromWatchlist (w : List School) (schoolName : String) : List School :=
  w.filter (fun s => s.name != schoolName)

/-- The toggleWatchlist function of src/README.md lines 1411-1426: removes
when an entry with the given name exists, adds the given school data
otherwise. -/
def toggleWatchlist (w : List School) (schoolName : String) (school : School) :
    List School :=
  if w.any (fun s => s.name == schoolName) then
    removeFromWatchlist w schoolName
  else
    (addToWatchlist w school).watchlist

/-- Membership of a name in the watchlist, as the client tests it with
state.watchlist.find on name equality. -/
def hasSchoolNamed (w : List School) (n : String) : Bool :=
  w.any (fun s => s.name == n)

/-- Duplicate freedom by name: no two watchlist entries share a name. -/
def nodupNames (w : List School) : Prop :=
  (w.map School.name).Nodup

/-- Model of the JS String trim method: leading and trailing whitespace
removed, with the string viewed as its character sequence. -/
def jsTrim (s : String) : String :=
  ⟨((s.data.dropWhile Char.isWhitespace).reverse.dropWhile Char.isWhitespace).reverse⟩

/-- The JS membership test of the five-digit zip regular expression used by
the first embedded client: the query is exactly five ASCII digits. -/
def isFiveDigitZip (q : String) : Bool :=
  q.data.length == 5 && q.data.all Char.isDigit

/-- Body of the search request the client posts to /api/schools/search. -/
structure SearchRequest where
  query : String
  search_type : String
  miles : Option Nat := none
deriving Repr, DecidableEq

/-- Request-building part of performSearch in the first embedded client
(src/README.md lines 291-330): the input is trimmed, an empty query sends
no request, a five-digit query routes to zip mode and any other query to
name mode. -/
def performSearchRequest (inputValue : String) : Option SearchRequest :=
  let query := jsTrim inputValue
  if query == "" then none
  else some { query := query,
              search_type := if isFiveDigitZip query then "zip" else "name" }

/-- Request-building part of performSearch in the second embedded client
(src/README.md lines 1150-1177): the search type is the checked radio
value, and the miles slider value applies only to zip and city searches
with a default of 10 otherwise. -/
def performSearchRequestV2 (inputValue selectedType : String)
    (milesSlider : Nat) : Option SearchRequest :=
  let query := jsTrim inputValue
  if query == "" then none
  else some { query := query, search_type := selectedType,
              miles := some (if selectedType == "zip" || selectedType == "city"
                             then milesSlider else 10) }

/-- Search-related part of the client state object of the second embedded
client (src/README.md lines 855-870). -/
structure SearchState where
  currentSearchQuery : Option String
  currentSearchType : Option String
  currentMiles : Nat
  loadedSchools : List School
  allSchoolsLoaded : Bool
deriving Repr, DecidableEq

/-- Possible outcomes of one fetch of /api/schools/search as the client
distinguishes them: transport failure, a response whose content type is
not JSON, a JSON response with success false carrying an optional error
string, and a successful JSON response whose optional fields mirror the
duck-typed payload. -/
inductive SearchResponse where
  | networkError (msg : String)
  | nonJsonContent
  | appError (err : Option String)
  | ok (school : Option School) (schools : Option (List School)) (miles : Option Nat)
deriving Repr, DecidableEq

/-- Abstract content of the searchResults panel. Each constructor models
one full innerHTML replacement performed by the client, so the panel
always holds exactly one of these values and nothing else. -/
inductive PanelContent where
  | loading
  | errorText (msg : String)
  | schoolDetails (school : Option School)
  | emptyResult (location distance : String)
  | schoolList (schools : List School) (location distance : String)
      (loadMoreOffered : Bool)
deriving Repr, DecidableEq

/-- Location heading text of the second embedded client, from the
template in src/README.md lines 1196-1200 and 1299-1301. -/
def locationText (searchType query : String) : String :=
  if searchType == "zip" then "ZIP " ++ query
  else if searchType == "city" then query
  else query ++ " state"

/-- Distance suffix text of the second embedded client, from the template
in src/README.md lines 1201-1202 and 1302-1303. -/
def distanceText (searchType : String) (displayMiles : Nat) : String :=
  if searchType == "zip" || searchType == "city" then
    " within " ++ toString displayMiles ++ " miles"
  else ""

/-- The displaySchoolList function of src/README.md lines 1219-1247: an
empty list renders a no-results error, otherwise the school cards are
rendered together with a Load More button exactly when
state.allSchoolsLoaded is false. -/
def displaySchoolList (allLoaded : Bool) (schools : List School)
    (location distance : String) : PanelContent :=
  if schools.isEmpty then .emptyResult location distance
  else .schoolList schools location distance (!allLoaded)

/-- Combined observable result of one performSearch run of the second
embedded client: the search state it leaves behind and the final panel
content. -/
structure SearchOutcome where
  state : SearchState
  panel : PanelContent
deriving Repr, DecidableEq

/-- The performSearch function of the second embedded client
(src/README.md lines 1150-1217), given the response of the single fetch
it performs. Returns none when the trimmed query is empty and the
function returns before touching anything. On any of the three failure
shapes the catch block replaces the panel with the one-line error text.
On success the state fields were already reset for the new search, the
loaded schools are remembered and the list or detail card is rendered. -/
def performSearch (inputValue selectedType : String) (milesSlider : Nat)
    (resp : SearchResponse) : Option SearchOutcome :=
  let query := jsTrim inputValue
  if query == "" then none
  else
    let searchType := selectedType
    let miles := if searchType == "zip" || searchType == "city" then milesSlider else 10
    let st : SearchState :=
      { currentSearchQuery := some query, currentSearchType := some searchType,
        currentMiles := miles, loadedSchools := [], allSchoolsLoaded := false }
    some <|
      match resp with
      | .networkError msg =>
          { state := st, panel := .errorText ("Error: " ++ msg) }
      | .nonJsonContent =>
          { state := st,
            panel := .errorText
              "Error: Server returned an invalid response. Please try again." }
      | .appError err =>
          { state := st, panel := .errorText ("Error: " ++ err.getD "Search failed") }
      | .ok school schools respMiles =>
          if searchType == "name" then
            { state := st, panel := .schoolDetails school }
          else
            let displayMiles := match respMiles with
              | some m => if m == 0 then miles else m
              | none => miles
            let loaded := schools.getD []
            let st2 := { st with loadedSchools := loaded }
            { state := st2,
              panel := displaySchoolList st2.allSchoolsLoaded loaded
                (locationText searchType query) (distanceText searchType displayMiles) }

/-- Body of the request the loadMoreSchools function posts, built from the
remembered search in src/README.md lines 1256-1268; query and type are
null before any list search, which the model keeps as Option. -/
structure LoadMoreRequest where
  query : Option String
  search_type : Option String
  miles : Nat
  exclude_schools : List String
deriving Repr, DecidableEq

/-- Request built by loadMoreSchools: the remembered query, type and miles
plus the names of every already loaded school as the exclusion list. -/
def loadMoreRequest (st : SearchState) : LoadMoreRequest :=
  { query := st.currentSearchQuery, search_type := st.currentSearchType,
    miles := st.currentMiles,
    exclude_schools := st.loadedSchools.map School.name }

/-- Observable result of one loadMoreSchools run: the search state left
behind, the request that was sent (none when the button is absent and the
function returns at once), the final label of the Load More button, and
the re-rendered panel when the list was re-rendered. -/
structure LoadMoreResult where
  state : SearchState
  request : Option LoadMoreRequest
  buttonLabel : String
  panel : Option PanelContent
deriving Repr, DecidableEq

/-- The loadMoreSchools function of src/README.md lines 1249-1312, given
the response of its fetch. Without a button it returns at once. A failure
of any of the three shapes is caught and only relabels the button. An
empty schools list marks allSchoolsLoaded and returns before rendering.
A non-empty list is appended to the loaded schools and the list is
re-rendered; JS string interpolation renders a null query or type as the
text null, which the getD calls below reproduce. -/
def loadMoreSchools (st : SearchState) (hasButton : Bool)
    (resp : SearchResponse) : LoadMoreResult :=
  if !hasButton then
    { state := st, request := none, buttonLabel := "Load More Schools", panel := none }
  else
    let req := loadMoreRequest st
    match resp with
    | .networkError _ | .nonJsonContent | .appError _ =>
        { state := st, request := some req, buttonLabel := "Error loading more",
          panel := none }
    | .ok _ schools _ =>
        let newSchools := schools.getD []
        if newSchools.isEmpty then
          { state := { st with allSchoolsLoaded := true },
            request := some req, buttonLabel := "No more schools found",
            panel := none }
        else
          let st2 := { st with loadedSchools := st.loadedSchools ++ newSchools }
          let ty := st2.currentSearchType.getD "null"
          let q := st2.currentSearchQuery.getD "null"
          { state := st2, request := some req, buttonLabel := "Load More Schools",
            panel := some (displaySchoolList st2.allSchoolsLoaded st2.loadedSchools
              (locationText ty q) (distanceText ty st2.currentMiles)) }

/-- One interview question as generated by the backend: a question text
and an optional category. -/
structure InterviewQuestion where
  question : String
  category : Option String := none
deriving Repr, DecidableEq

/-- Interview-related part of the client state. -/
structure InterviewState where
  interviewQuestions : List InterviewQuestion
  currentQuestionIndex : Nat
deriving Repr, DecidableEq

/-- The loadNextQuestion function (src/README.md lines 1661-1667, same in
src/static/app.js lines 301-307): increment the index and reset it to
zero when it reaches the length of the question list. -/
def loadNextQuestion (st : InterviewState) : InterviewState :=
  let next := st.currentQuestionIndex + 1
  if st.interviewQuestions.length ≤ next then
    { st with currentQuestionIndex := 0 }
  else
    { st with currentQuestionIndex := next }

/-- Phase of the MediaRecorder as the client tests it: recording or not. -/
inductive RecPhase where
  | inactive
  | recording
deriving Repr, DecidableEq

/-- Recorder-related part of the client state: the MediaRecorder phase,
whether the microphone tracks of its stream are still live, the
remembered start time, and the absolute time at which the callback
scheduled by startRecording with setTimeout will run. -/
structure RecorderState where
  phase : RecPhase
  micTracksLive : Bool
  recordingStartTime : Option Nat
  autoStopFireTime : Option Nat
deriving Repr, DecidableEq

/-- Successful branch of startRecording (src/README.md lines 1677-1709):
a new recorder starts recording on live microphone tracks, the start time
is remembered, and a stop callback is scheduled 60000 milliseconds after
the current time. -/
def startRecording (now : Nat) : RecorderState :=
  { phase := .recording, micTracksLive := true,
    recordingStartTime := some now, autoStopFireTime := some (now + 60000) }

/-- The stopRecording function (src/README.md lines 1711-1721): when the
recorder is recording, it is stopped and every track of its stream is
stopped; otherwise nothing happens. -/
def stopRecording (s : RecorderState) : RecorderState :=
  if s.phase = .recording then
    { s with phase := .inactive, micTracksLive := false }
  else s

/-- The callback scheduled by startRecording (src/README.md lines
1700-1704): it calls stopRecording only when the recorder still exists
and is still recording. -/
def autoStopCallback (s : RecorderState) : RecorderState :=
  if s.phase = .recording then stopRecording s else s

/-- A minimal JSON value, as produced and consumed by the JSON
serialization the client stores in localStorage. -/
inductive Json where
  | null
  | bool (b : Bool)
  | num (n : Int)
  | str (s : String)
  | arr (elems : List Json)
  | obj (fields : List (String × Json))

/-- One chat message of a session: a role and its content. -/
structure ChatMessage where
  role : String
  content : String
deriving Repr, DecidableEq

/-- Modelled from the spec: the chat-history client that src/README.md
describes (chat history panel, message persistence in localStorage) is
not among the shipped scripts, so the chat session record is modelled
from the spec data model: an id, a title, an ordered list of role and
content messages, and a creation timestamp. -/
structure ChatSession where
  id : Int
  title : String
  messages : List ChatMessage
  createdAt : Int
deriving Repr, DecidableEq

/-- Modelled from the spec: JSON serialization of one chat message. -/
def encodeMessage (m : ChatMessage) : Json :=
  .obj [("role", .str m.role), ("content", .str m.content)]

/-- Modelled from the spec: JSON deserialization of one chat message. -/
def decodeMessage : Json → Option ChatMessage
  | .obj [("role", .str role), ("content", .str content)] =>
      some { role := role, content := content }
  | _ => none

/-- Modelled from the spec: JSON serialization of one chat session. -/
def encodeSession (s : ChatSession) : Json :=
  .obj [("id", .num s.id), ("title", .str s.title),
        ("messages", .arr (s.messages.map encodeMessage)),
        ("createdAt", .num s.createdAt)]

/-- Modelled from the spec: deserialization of a JSON message array,
failing when any element fails. -/
def decodeMessages : List Json → Option (List ChatMessage)
  | [] => some []
  | j :: rest =>
      match decodeMessage j, decodeMessages rest with
      | some m, some ms => some (m :: ms)
      | _, _ => none

/-- Modelled from the spec: JSON deserialization of one chat session. -/
def decodeSession : Json → Option ChatSession
  | .obj [("id", .num id), ("title", .str title),
          ("messages", .arr msgs), ("createdAt", .num createdAt)] =>
      (decodeMessages msgs).map
        (fun messages =>
          { id := id, title := title, messages := messages, createdAt := createdAt })
  | _ => none

/-- Modelled from the spec: the sessions are stored as one JSON array. -/
def encodeSessions (l : List ChatSession) : Json :=
  .arr (l.map encodeSession)

/-- Modelled from the spec: deserialization of the stored session list,
failing when any element fails. -/
def decodeSessionList : List Json → Option (List ChatSession)
  | [] => some []
  | j :: rest =>
      match decodeSession j, decodeSessionList rest with
      | some s, some ss => some (s :: ss)
      | _, _ => none

/-- Modelled from the spec: deserialization of the stored session array. -/
def decodeSessions : Json → Option (List ChatSession)
  | .arr elems => decodeSessionList elems
  | _ => none

/-- Modelled from the spec: browser localStorage as a string-keyed store
of serialized JSON values. -/
abbrev LocalStore := List (String × Json)

/-- Modelled from the spec: setItem replaces the value under a key. -/
def setItem (store : LocalStore) (key : String) (value : Json) : LocalStore :=
  (key, value) :: store.filter (fun kv => kv.1 != key)

/-- Modelled from the spec: getItem looks a key up. -/
def getItem (store : LocalStore) (key : String) : Option Json :=
  List.lookup key store

/-- Modelled from the spec: saving the chat history writes the whole
session array, JSON-serialized, under one localStorage key. -/
def saveChatSessions (store : LocalStore) (sessions : List ChatSession) : LocalStore :=
  setItem store "chatSessions" (encodeSessions sessions)

/-- Modelled from the spec: the reload path reads the stored array back
and deserializes it. -/
def loadChatSessions (store : LocalStore) : Option (List ChatSession) :=
  (getItem store "chatSessions").bind decodeSessions

/-- Modelled from the spec: a newly created chat session is inserted at
the front of the session list, keeping the array most-recent-first. -/
def startNewSession (s : ChatSession) (sessions : List ChatSession) :
    List ChatSession :=
  s :: sessions

/-! Helper lemmas shared by the claim theorems. -/

lemma hasSchoolNamed_iff (w : List School) (n : String) :
    hasSchoolNamed w n = true ↔ n ∈ w.map School.name := by
  simp only [hasSchoolNamed, List.any_eq_true, beq_iff_eq, List.mem_map]

lemma hasSchoolNamed_removeFromWatchlist (w : List School) (n : String) :
    hasSchoolNamed (removeFromWatchlist w n) n = false := by
  unfold hasSchoolNamed removeFromWatchlist
  rw [List.any_eq_false]
  intro x hx
  have h2 := (List.mem_filter.mp hx).2
  simp only [bne_iff_ne, ne_eq] at h2
  simp [h2]

lemma nodupNames_filter (w : List School) (p : School → Bool)
    (h : nodupNames w) : nodupNames (w.filter p) :=
  h.sublist ((List.filter_sublist w).map School.name)

lemma nodupNames_concat (w : List School) (s : School) (h : nodupNames w)
    (hn : hasSchoolNamed w s.name = false) : nodupNames (w ++ [s]) := by
  have hmem : s.name ∉ w.map School.name := by
    intro hm
    rw [← hasSchoolNamed_iff] at hm
    rw [hn] at hm
    exact Bool.false_ne_true hm
  unfold nodupNames at h ⊢
  rw [List.map_append, List.nodup_append]
  refine ⟨h, List.nodup_singleton _, ?_⟩
  intro a ha hb
  simp only [List.map_cons, List.map_nil, List.mem_singleton] at hb
  exact hmem (hb ▸ ha)

lemma filter_ne_name_eq_self (t : List School) (n : String)
    (hn : n ∉ t.map School.name) :
    t.filter (fun s => s.name != n) = t := by
  apply List.filter_eq_self.mpr
  intro a ha
  simp only [bne_iff_ne, ne_eq]
  intro hcontra
  exact hn (hcontra ▸ List.mem_map_of_mem School.name ha)

lemma removeFromWatchlist_length (w : List School) (n : String)
    (hd : nodupNames w) (hm : n ∈ w.map School.name) :
    (removeFromWatchlist w n).length + 1 = w.length := by
  induction w with
  | nil => simp at hm
  | cons s t ih =>
      unfold nodupNames at hd
      rw [List.map_cons, List.nodup_cons] at hd
      rw [List.map_cons, List.mem_cons] at hm
      by_cases hs : s.name = n
      · have hnot : n ∉ t.map School.name := hs ▸ hd.1
        unfold removeFromWatchlist
        rw [List.filter_cons]
        have hfalse : (s.name != n) = false := by simp [hs]
        rw [hfalse]
        simp only [if_neg Bool.false_ne_true]
        rw [filter_ne_name_eq_self t n hnot]
        simp
      · have hm2 : n ∈ t.map School.name := by
          rcases hm with he | hmem
          · exact absurd he.symm hs
          · exact hmem
        have hps : (s.name != n) = true := bne_iff_ne.mpr hs
        unfold removeFromWatchlist at ih ⊢
        have hrec := ih hd.2 hm2
        rw [List.filter_cons]
        simp only [hps, if_true, List.length_cons]
        omega

lemma hasSchoolNamed_concat (w : List School) (s : School) (n : String) :
    hasSchoolNamed (w ++ [s]) n = (hasSchoolNamed w n || (s.name == n)) := by
  simp [hasSchoolNamed, List.any_append]

/-! Theorems settling the claims. -/

/-- C1: a load-more step on a non-exhausted paginated search sends a
request whose exclude_schools field is exactly the names of the loaded
schools; a successful non-empty page is appended to the loaded schools
without discarding anything and leaves allSchoolsLoaded false; a
successful empty page sets allSchoolsLoaded, after which a rendered list
offers no further page. -/
theorem loadMoreSchools_pagination (st : SearchState) (q ty : String)
    (hq : st.currentSearchQuery = some q)
    (hty : st.currentSearchType = some ty)
    (hnl : st.allSchoolsLoaded = false) :
    (∀ resp, (loadMoreSchools st true resp).request = some (loadMoreRequest st)) ∧
    (loadMoreRequest st).exclude_schools = st.loadedSchools.map School.name ∧
    (loadMoreRequest st).query = some q ∧
    (loadMoreRequest st).search_type = some ty ∧
    (∀ sc m newSchools, newSchools ≠ [] →
        (loadMoreSchools st true (.ok sc (some newSchools) m)).state.loadedSchools
          = st.loadedSchools ++ newSchools ∧
        (loadMoreSchools st true (.ok sc (some newSchools) m)).state.allSchoolsLoaded
          = false) ∧
    (∀ sc m,
        (loadMoreSchools st true (.ok sc (some []) m)).state.allSchoolsLoaded
          = true ∧
        (loadMoreSchools st true (.ok sc (some []) m)).state.loadedSchools
          = st.loadedSchools ∧
        (∀ schools loc dist, schools ≠ [] →
            displaySchoolList
              (loadMoreSchools st true (.ok sc (some []) m)).state.allSchoolsLoaded
              schools loc dist
              = .schoolList schools loc dist false)) := by
  refine ⟨?_, rfl, ?_, ?_, ?_, ?_⟩
  · intro resp
    cases resp with
    | networkError msg => rfl
    | nonJsonContent => rfl
    | appError err => rfl
    | ok sc schools m =>
        simp only [loadMoreSchools, Bool.not_true, Bool.false_eq_true, if_false]
        split <;> rfl
  · simp [loadMoreRequest, hq]
  · simp [loadMoreRequest, hty]
  · intro sc m newSchools hns
    have hne : newSchools.isEmpty = false := by
      cases newSchools with
      | nil => exact absurd rfl hns
      | cons a t => rfl
    constructor
    · simp [loadMoreSchools, hne]
    · simp [loadMoreSchools, hne, hnl]
  · intro sc m
    refine ⟨by simp [loadMoreSchools], by simp [loadMoreSchools], ?_⟩
    intro schools loc dist hne
    have hne2 : schools.isEmpty = false := by
      cases schools with
      | nil => exact absurd rfl hne
      | cons a t => rfl
    simp [loadMoreSchools, displaySchoolList, hne2]

/-- C1 witness: a concrete load-more step appending one new school. -/
theorem loadMoreSchools_pagination_witness :
    ({ currentSearchQuery := some "10001", currentSearchType := some "zip",
       currentMiles := 10, loadedSchools := [⟨"A", none, none⟩],
       allSchoolsLoaded := false : SearchState }).allSchoolsLoaded = false ∧
    (loadMoreRequest
      { currentSearchQuery := some "10001", currentSearchType := some "zip",
        currentMiles := 10, loadedSchools := [⟨"A", none, none⟩],
        allSchoolsLoaded := false }).exclude_schools = ["A"] ∧
    (loadMoreSchools
      { currentSearchQuery := some "10001", currentSearchType := some "zip",
        currentMiles := 10, loadedSchools := [⟨"A", none, none⟩],
        allSchoolsLoaded := false }
      true (.ok none (some [⟨"B", none, none⟩]) none)).state.loadedSchools
      = [⟨"A", none, none⟩, ⟨"B", none, none⟩] := by
  have h := loadMoreSchools_pagination
    { currentSearchQuery := some "10001", currentSearchType := some "zip",
      currentMiles := 10, loadedSchools := [⟨"A", none, none⟩],
      allSchoolsLoaded := false }
    "10001" "zip" rfl rfl rfl
  refine ⟨rfl, by decide, ?_⟩
  have h2 := (h.2.2.2.2.1 none none [⟨"B", none, none⟩] (by decide)).1
  rw [h2]
  rfl

/-- C4: each of the three load-more failure shapes leaves the search state
untouched, the loaded schools and the pagination flag included; only the
button label changes to the error label, and nothing is re-rendered. -/
theorem loadMoreSchools_failure_atomic (st : SearchState) :
    (∀ msg,
        (loadMoreSchools st true (.networkError msg)).state = st ∧
        (loadMoreSchools st true (.networkError msg)).buttonLabel
          = "Error loading more" ∧
        (loadMoreSchools st true (.networkError msg)).panel = none) ∧
    ((loadMoreSchools st true .nonJsonContent).state = st ∧
     (loadMoreSchools st true .nonJsonContent).buttonLabel
       = "Error loading more" ∧
     (loadMoreSchools st true .nonJsonContent).panel = none) ∧
    (∀ err,
        (loadMoreSchools st true (.appError err)).state = st ∧
        (loadMoreSchools st true (.appError err)).buttonLabel
          = "Error loading more" ∧
        (loadMoreSchools st true (.appError err)).panel = none) := by
  refine ⟨fun msg => ⟨rfl, rfl, rfl⟩, ⟨rfl, rfl, rfl⟩, fun err => ⟨rfl, rfl, rfl⟩⟩

/-- C2: adding a school already present by name leaves both the in-memory
watchlist and the persisted copy unchanged and surfaces a notice;
otherwise the school is appended and saved; and duplicate freedom by name
is preserved by addToWatchlist, removeFromWatchlist and toggleWatchlist. -/
theorem addToWatchlist_dedup (w : List School) (s : School) :
    (hasSchoolNamed w s.name = true →
        (addToWatchlist w s).watchlist = w ∧
        (addToWatchlist w s).stored = none ∧
        (addToWatchlist w s).notice = true) ∧
    (hasSchoolNamed w s.name = false →
        (addToWatchlist w s).watchlist = w ++ [s] ∧
        (addToWatchlist w s).stored = some (w ++ [s]) ∧
        (addToWatchlist w s).notice = false) ∧
    (nodupNames w → nodupNames (addToWatchlist w s).watchlist) ∧
    (∀ n, nodupNames w → nodupNames (removeFromWatchlist w n)) ∧
    (∀ n, nodupNames w → nodupNames (toggleWatchlist w n s)) := by
  refine ⟨?_, ?_, ?_, ?_, ?_⟩
  · intro h
    have h2 : (w.any fun x => x.name == s.name) = true := h
    simp [addToWatchlist, h2]
  · intro h
    have h2 : (w.any fun x => x.name == s.name) = false := h
    simp [addToWatchlist, h2]
  · intro hd
    by_cases h : (w.any fun x => x.name == s.name) = true
    · simp [addToWatchlist, h]
      exact hd
    · have h2 : (w.any fun x => x.name == s.name) = false := Bool.eq_false_iff.mpr h
      simp [addToWatchlist, h2]
      exact nodupNames_concat w s hd h2
  · intro n hd
    exact nodupNames_filter w _ hd
  · intro n hd
    by_cases h : (w.any fun x => x.name == n) = true
    · simp [toggleWatchlist, h]
      exact nodupNames_filter w _ hd
    · have h2 : (w.any fun x => x.name == n) = false := Bool.eq_false_iff.mpr h
      simp [toggleWatchlist, h2]
      by_cases hA : (w.any fun x => x.name == s.name) = true
      · simp [addToWatchlist, hA]
        exact hd
      · have hA2 : (w.any fun x => x.name == s.name) = false := Bool.eq_false_iff.mpr hA
        simp [addToWatchlist, hA2]
        exact nodupNames_concat w s hd hA2

/-- C2 witness: adding the already-listed school A changes nothing and
raises the notice. -/
theorem addToWatchlist_dedup_witness :
    hasSchoolNamed [(⟨"A", none, none⟩ : School)] "A" = true ∧
    (addToWatchlist [(⟨"A", none, none⟩ : School)] ⟨"A", none, none⟩).watchlist
      = [⟨"A", none, none⟩] ∧
    (addToWatchlist [(⟨"A", none, none⟩ : School)] ⟨"A", none, none⟩).notice
      = true := by
  have h := (addToWatchlist_dedup [(⟨"A", none, none⟩ : School)]
    ⟨"A", none, none⟩).1 (by decide)
  exact ⟨by decide, h.1, h.2.2⟩

/-- C6: removeFromWatchlist removes exactly the entries carrying the given
name: no surviving entry has the name, entries of any other name keep
their multiplicity, the relative order is preserved, and under duplicate
freedom a present name loses exactly one entry. -/
theorem removeFromWatchlist_exact (w : List School) (n : String) :
    (∀ s, s ∈ removeFromWatchlist w n → s.name ≠ n) ∧
    (∀ s : School, s.name ≠ n →
        (removeFromWatchlist w n).count s = w.count s) ∧
    List.Sublist (removeFromWatchlist w n) w ∧
    (nodupNames w → n ∈ w.map School.name →
        (removeFromWatchlist w n).length + 1 = w.length) := by
  refine ⟨?_, ?_, List.filter_sublist w, removeFromWatchlist_length w n⟩
  · intro s hs
    exact bne_iff_ne.mp (List.mem_filter.mp hs).2
  · intro s hne
    exact List.count_filter (bne_iff_ne.mpr hne)

/-- C6 witness: removing A from the two-school watchlist keeps B with its
multiplicity and drops exactly one entry. -/
theorem removeFromWatchlist_exact_witness :
    ((⟨"B", none, none⟩ : School).name ≠ "A") ∧
    (removeFromWatchlist [(⟨"A", none, none⟩ : School), ⟨"B", none, none⟩]
        "A").count ⟨"B", none, none⟩
      = ([(⟨"A", none, none⟩ : School), ⟨"B", none, none⟩]).count
          ⟨"B", none, none⟩ ∧
    (removeFromWatchlist [(⟨"A", none, none⟩ : School), ⟨"B", none, none⟩]
        "A").length + 1 = 2 := by
  have h := removeFromWatchlist_exact
    [(⟨"A", none, none⟩ : School), ⟨"B", none, none⟩] "A"
  have hnd : nodupNames [(⟨"A", none, none⟩ : School), ⟨"B", none, none⟩] := by
    unfold nodupNames
    decide
  exact ⟨by decide, h.2.1 ⟨"B", none, none⟩ (by decide), h.2.2.2 hnd (by decide)⟩

/-- C10: toggleWatchlist with a name and its school data flips the
membership of that name in the watchlist, and toggling twice restores the
original membership. -/
theorem toggleWatchlist_flips (n : String) (school : School)
    (h : school.name = n) :
    (∀ w, hasSchoolNamed (toggleWatchlist w n school) n = !hasSchoolNamed w n) ∧
    (∀ w, hasSchoolNamed (toggleWatchlist (toggleWatchlist w n school) n school) n
        = hasSchoolNamed w n) := by
  have flip : ∀ w,
      hasSchoolNamed (toggleWatchlist w n school) n = !hasSchoolNamed w n := by
    intro w
    by_cases hw : (w.any fun s => s.name == n) = true
    · have hw' : hasSchoolNamed w n = true := hw
      simp [toggleWatchlist, hw, hw', hasSchoolNamed_removeFromWatchlist]
    · have hw2 : (w.any fun s => s.name == n) = false := Bool.eq_false_iff.mpr hw
      have hw2' : hasSchoolNamed w n = false := hw2
      have hadd : (w.any fun x => x.name == school.name) = false := by
        rw [h]
        exact hw2
      simp [toggleWatchlist, addToWatchlist, hw2, hadd,
            hasSchoolNamed_concat, hw2', h]
  exact ⟨flip, fun w => by rw [flip, flip, Bool.not_not]⟩

/-- C10 witness: toggling A into the empty watchlist and back out. -/
theorem toggleWatchlist_flips_witness :
    ((⟨"A", none, none⟩ : School).name = "A") ∧
    hasSchoolNamed (toggleWatchlist [] "A" ⟨"A", none, none⟩) "A" = true ∧
    hasSchoolNamed
        (toggleWatchlist (toggleWatchlist [] "A" ⟨"A", none, none⟩) "A"
          ⟨"A", none, none⟩) "A"
      = false := by
  have h := toggleWatchlist_flips "A" ⟨"A", none, none⟩ rfl
  refine ⟨rfl, ?_, ?_⟩
  · rw [h.1 []]
    decide
  · rw [h.2 []]
    decide

/-- C3: in the first embedded client a trimmed non-empty query of exactly
five digits is routed to zip mode and any other query to name mode; in
the radio-driven client the sent search type is the selected mode
regardless of the query shape. -/
theorem performSearch_routing (query : String) (hq : jsTrim query = query)
    (hne : query ≠ "") :
    (isFiveDigitZip query = true →
        performSearchRequest query
          = some { query := query, search_type := "zip" }) ∧
    (isFiveDigitZip query = false →
        performSearchRequest query
          = some { query := query, search_type := "name" }) ∧
    (∀ selectedType milesSlider, ∃ req,
        performSearchRequestV2 query selectedType milesSlider = some req ∧
        req.search_type = selectedType ∧ req.query = query) := by
  have hempty : (query == "") = false := beq_eq_false_iff_ne.mpr hne
  refine ⟨?_, ?_, ?_⟩
  · intro hz
    simp [performSearchRequest, hq, hempty, hz]
  · intro hz
    simp [performSearchRequest, hq, hempty, hz]
  · intro selectedType milesSlider
    refine ⟨{ query := query, search_type := selectedType,
              miles := some (if selectedType == "zip" || selectedType == "city"
                             then milesSlider else 10) }, ?_, rfl, rfl⟩
    simp [performSearchRequestV2, hq, hempty]

/-- C3 witness: the five-digit query 10001 routes to zip mode. -/
theorem performSearch_routing_witness :
    jsTrim "10001" = "10001" ∧ "10001" ≠ "" ∧ isFiveDigitZip "10001" = true ∧
    performSearchRequest "10001"
      = some { query := "10001", search_type := "zip" } := by
  refine ⟨by decide, by decide, by decide, ?_⟩
  exact (performSearch_routing "10001" (by decide) (by decide)).1 (by decide)

/-- C5: every failing search request of the radio-driven client replaces
the results panel with exactly the one-line error text of that failure,
with nothing of any earlier rendering left in the panel. -/
theorem performSearch_failure_panel (inputValue selectedType : String)
    (ms : Nat) (hne : (jsTrim inputValue == "") = false) :
    (∀ msg,
        (performSearch inputValue selectedType ms (.networkError msg)).map
            SearchOutcome.panel
          = some (.errorText ("Error: " ++ msg))) ∧
    ((performSearch inputValue selectedType ms .nonJsonContent).map
        SearchOutcome.panel
      = some (.errorText
          "Error: Server returned an invalid response. Please try again.")) ∧
    (∀ err,
        (performSearch inputValue selectedType ms (.appError err)).map
            SearchOutcome.panel
          = some (.errorText ("Error: " ++ err.getD "Search failed"))) := by
  refine ⟨fun msg => ?_, ?_, fun err => ?_⟩ <;> simp [performSearch, hne]

/-- C5 witness: a non-JSON response to a concrete city search leaves only
the invalid-response error line in the panel. -/
theorem performSearch_failure_panel_witness :
    (jsTrim "boston" == "") = false ∧
    (performSearch "boston" "city" 25 .nonJsonContent).map SearchOutcome.panel
      = some (.errorText
          "Error: Server returned an invalid response. Please try again.") :=
  ⟨by decide, (performSearch_failure_panel "boston" "city" 25 (by decide)).2.1⟩

lemma decodeMessages_map_encode (ms : List ChatMessage) :
    decodeMessages (ms.map encodeMessage) = some ms := by
  induction ms with
  | nil => rfl
  | cons m t ih =>
      have hm : decodeMessage (encodeMessage m) = some m := rfl
      simp [decodeMessages, hm, ih]

lemma decodeSession_encode (s : ChatSession) :
    decodeSession (encodeSession s) = some s := by
  have h := decodeMessages_map_encode s.messages
  simp [decodeSession, encodeSession, h]

lemma decodeSessionList_map_encode (l : List ChatSession) :
    decodeSessionList (l.map encodeSession) = some l := by
  induction l with
  | nil => rfl
  | cons s t ih => simp [decodeSessionList, decodeSession_encode, ih]

/-- C7: the chat history is persisted as one JSON array of session
objects, and the reload path reproduces exactly the same session list
with the same message order; a newly created session is stored at the
front, keeping the array most-recent-first. -/
theorem chatSessions_roundtrip (store : LocalStore) (sessions : List ChatSession) :
    getItem (saveChatSessions store sessions) "chatSessions"
      = some (encodeSessions sessions) ∧
    loadChatSessions (saveChatSessions store sessions) = some sessions ∧
    (∀ s rest, startNewSession s rest = s :: rest) := by
  have hget : getItem (saveChatSessions store sessions) "chatSessions"
      = some (encodeSessions sessions) := by
    simp [getItem, saveChatSessions, setItem, List.lookup]
  refine ⟨hget, ?_, fun s rest => rfl⟩
  simp [loadChatSessions, hget, encodeSessions, decodeSessions,
        decodeSessionList_map_encode]

/-- C8: startRecording schedules the auto-stop callback to fire exactly
60000 milliseconds after the recording begins, and when that callback
runs against a still-recording recorder it stops it and releases its
microphone tracks, so the microphone is not held past the ceiling. -/
theorem startRecording_autoStop (now : Nat) (s : RecorderState)
    (h : s.phase = .recording) :
    (startRecording now).autoStopFireTime = some (now + 60000) ∧
    (startRecording now).phase = .recording ∧
    (startRecording now).micTracksLive = true ∧
    (autoStopCallback s).phase = .inactive ∧
    (autoStopCallback s).micTracksLive = false := by
  refine ⟨rfl, rfl, rfl, ?_, ?_⟩ <;> simp [autoStopCallback, stopRecording, h]

/-- C8 witness: the callback fired on a just-started recording stops it
and releases the microphone, with the fire time 60000 after the start. -/
theorem startRecording_autoStop_witness :
    (startRecording 0).autoStopFireTime = some 60000 ∧
    (autoStopCallback (startRecording 0)).phase = RecPhase.inactive ∧
    (autoStopCallback (startRecording 0)).micTracksLive = false := by
  have h := startRecording_autoStop 0 (startRecording 0) rfl
  exact ⟨h.1, h.2.2.2.1, h.2.2.2.2⟩

/-- C9: on a non-empty question list with an in-range index,
loadNextQuestion keeps the index in range: it advances by one and wraps
to zero exactly when the incremented index reaches the length. -/
theorem loadNextQuestion_wraps (st : InterviewState)
    (h : st.currentQuestionIndex < st.interviewQuestions.length) :
    (loadNextQuestion st).currentQuestionIndex < st.interviewQuestions.length ∧
    (loadNextQuestion st).interviewQuestions = st.interviewQuestions ∧
    (st.currentQuestionIndex + 1 < st.interviewQuestions.length →
        (loadNextQuestion st).currentQuestionIndex
          = st.currentQuestionIndex + 1) ∧
    (st.currentQuestionIndex + 1 = st.interviewQuestions.length →
        (loadNextQuestion st).currentQuestionIndex = 0) := by
  have hQ : (loadNextQuestion st).interviewQuestions = st.interviewQuestions := by
    unfold loadNextQuestion
    dsimp only
    split <;> rfl
  have hI : (loadNextQuestion st).currentQuestionIndex
      = if st.interviewQuestions.length ≤ st.currentQuestionIndex + 1 then 0
        else st.currentQuestionIndex + 1 := by
    unfold loadNextQuestion
    dsimp only
    split <;> rfl
  refine ⟨?_, hQ, ?_, ?_⟩
  · rw [hI]
    split <;> omega
  · intro hlt
    rw [hI, if_neg (by omega)]
  · intro he
    rw [hI, if_pos (by omega)]

/-- C9 witness: advancing from the last of two questions wraps to zero,
which is in range. -/
theorem loadNextQuestion_wraps_witness :
    (1 : Nat) < 2 ∧
    (loadNextQuestion
        { interviewQuestions := [⟨"q0", none⟩, ⟨"q1", none⟩],
          currentQuestionIndex := 1 }).currentQuestionIndex = 0 := by
  have h := loadNextQuestion_wraps
    { interviewQuestions := [⟨"q0", none⟩, ⟨"q1", none⟩],
      currentQuestionIndex := 1 } (by decide)
  exact ⟨by decide, h.2.2.2 (by decide)⟩

end SchoolApp
